import Mathlib

set_option maxRecDepth 100000

/-!
Verification of the lifeOS iteration-orchestration engine.

This file gives a shallow embedding of the two Python source files

  * `autonomous-lifeos-builder.py` — prompt template registry
    (`get_agent_prompt`), session runner (`run_agent_iteration`),
    loop controller (`run_continuous_build`) and session log writer;
  * `lifeos-agents/src/python/claude_code_wrapper.py` — the single-shot
    wrapper (`send_message`, `main`),

and proves the behavioural properties stated in the specification.

Machine strings are embedded as Lean `String`; the external agent runtime
(the only effectful collaborator) is embedded as an explicit oracle value
describing where, if anywhere, it raises.  Python exceptions are embedded
as `Except String`.
-/

/-! ## Configuration constants (builder source, lines 37-42)

`Path` values are embedded as their rendered path strings, which is the
only way the builder consumes them (`str(...)` interpolation). -/

def LIFEOS_ROOT : String := "/home/louisdup/Agents/lifeOS"

def ECHO_MVP_DIR : String := LIFEOS_ROOT ++ "/echo-mvp"

def MASTRA_BACKEND : String := ECHO_MVP_DIR ++ "/mastra-backend"

def EXPO_APP : String := ECHO_MVP_DIR ++ "/expo-app"

def AUTO_CONTINUE_DELAY : Nat := 5

/-! ## Python string primitives -/

/-- Replacement of all non-overlapping occurrences of `old` in a character
list, scanning left to right, as Python `str.replace` does.  The `fuel`
argument makes the recursion structural; callers pass the length of the
subject list, which bounds the number of scanning steps whenever `old` is
nonempty (each step consumes at least one character). -/
def replaceAllFuel : Nat → List Char → List Char → List Char → List Char
  | 0, s, _, _ => s
  | _ + 1, [], _, _ => []
  | fuel + 1, c :: rest, old, new =>
    if List.isPrefixOf old (c :: rest) then
      new ++ replaceAllFuel fuel (List.drop old.length (c :: rest)) old new
    else
      c :: replaceAllFuel fuel rest old new

/-- Accumulator-style list length (equal to `List.length`, proved below);
keeping the fuel computation tail-recursive lets proofs evaluate
`pyReplace` on the long prompt strings without deep recursion. -/
def listLen : List Char → Nat → Nat
  | [], n => n
  | _ :: l, n => listLen l (n + 1)

/-- Python `s.replace(old, new)`.  The builder only ever calls it with the
nonempty placeholder patterns, so the empty-pattern branch (where Python
would interleave `new` between all characters) is never exercised and is
embedded as the identity. -/
def pyReplace (s old new : String) : String :=
  if old.data.isEmpty then s
  else String.mk (replaceAllFuel (listLen s.data 0) s.data old.data new.data)

/-- Python `s.upper()`, character-wise ASCII uppercasing (all strings fed to
it in the source are ASCII role names). -/
def pyUpper (s : String) : String := String.mk (s.data.map Char.toUpper)

/-- Python `s[:n]`: the first `n` characters of a string. -/
def pyTruncate (n : Nat) (s : String) : String := String.mk (s.data.take n)

/-! ## Prompt Template Registry (builder source, lines 45-368)

The role-specific task bodies are the literal dictionary values of
`agent_prompts`; the source dictionary literal binds the key `"frontend"`
twice (lines 181 and 245), and Python keeps the later binding. -/

def prompt_database : String := "\n**Component:** Neon PostgreSQL Database Setup\n**Architecture:** Hosted backend (VPS + Neon)\n\n### Tasks (Priority Order):\n1. Read HOSTED_ARCHITECTURE.md to understand new architecture\n2. Create database schema file (schema.sql) with tables:\n   - users (id, email, username, password_hash)\n   - messages (id, user_id, content, role, agent_name, metadata)\n   - agent_state (id, user_id, agent_name, state_data)\n   - sessions (id, user_id, token, expires_at)\n3. Create migration script to set up Neon database\n4. Add database connection to Mastra backend\n5. Update backend to use PostgreSQL instead of LibSQL\n6. Test database connection and queries\n\n### Success Criteria:\n- Schema file created and documented\n- Can connect to Neon from backend\n- Messages table can store/retrieve chat messages\n- All indexes created for performance\n\n### Technologies:\n- @neondatabase/serverless\n- PostgreSQL\n- SQL migrations\n"

def prompt_email : String := "\n**Component:** Email Agent (@mail) - Mastra backend + Neon DB\n**Files:** {mastra}/src/agents/email-agent.ts, {mastra}/src/tools/gmail-tools.ts\n\n### Tasks (Priority Order):\n1. Update email agent to store messages in Neon database\n2. Update agent memory to use PostgreSQL (agent_state table)\n3. Test Gmail OAuth integration (see GMAIL_OAUTH_SETUP.md)\n4. Verify all email tools work with database: list, search, get details, draft, send\n5. Ensure conversation history persists to database\n6. Add error handling and edge cases\n7. Test with real Gmail API\n\n### Success Criteria:\n- Email agent uses Neon for message storage\n- Conversation history persists across sessions\n- All Gmail tools functional with DB integration\n- OAuth flow works\n- Draft → send workflow reliable\n\n### Current Issues to Address:\n- Migrate from LibSQL to PostgreSQL\n- Store agent state in agent_state table\n- Update memory configuration for Neon\n"

def prompt_calendar : String := "\n**Component:** Calendar Agent (@cal) - Needs implementation\n**Files:** {mastra}/src/agents/ (create calendar-agent.ts), {mastra}/src/tools/ (create calendar-tools.ts)\n\n### Tasks (Priority Order):\n1. Review calendar requirements in docs/stage-0-spec.md\n2. Create calendar agent following email-agent.ts pattern\n3. Implement Google Calendar OAuth\n4. Create calendar tools: list events, create event, update event, delete event\n5. Add natural language date parsing\n6. Test with real Google Calendar API\n7. Add to agent registry/routing\n8. Create tests\n\n### Success Criteria:\n- Calendar agent created and registered\n- Google Calendar OAuth working\n- All CRUD operations functional\n- Natural language date handling (\"tomorrow at 3pm\")\n- Tests passing\n\n### Reference:\n- Email agent structure: {mastra}/src/agents/email-agent.ts\n- Mastra docs for agent creation\n"

def prompt_memory : String := "\n**Component:** Memory Agent (@mem) - Search/RAG system\n**Files:** {mastra}/src/agents/ (create memory-agent.ts), database setup\n\n### Tasks (Priority Order):\n1. Review memory requirements in docs/stage-0-spec.md\n2. Design memory storage (LibSQL/SQLite)\n3. Create memory agent for semantic search\n4. Implement full-text search across all contexts\n5. Add conversation history storage\n6. Implement RAG-based retrieval\n7. Create memory tools: search, store, recall\n8. Test with sample data\n\n### Success Criteria:\n- Memory agent created\n- Database schema defined\n- Full-text search working\n- RAG retrieval functional\n- Conversation history persisted\n- Fast search (<500ms)\n\n### Technologies:\n- LibSQLStore (already used in email-agent)\n- Vector embeddings (optional MVP enhancement)\n- Mastra Memory system\n"

def prompt_frontend_v1 : String := "\n**Component:** Expo React Native Frontend\n**Files:** {expo}/App.js, {expo}/app/**, {expo}/components/**\n\n### Tasks (Priority Order):\n1. Review existing Expo app structure\n2. Fix any dependency issues (npm install)\n3. Test chat interface\n4. Connect to Mastra backend (http://localhost:3001)\n5. Implement @mention agent routing\n6. Test email agent UI flows\n7. Add calendar agent UI (when ready)\n8. Add memory agent UI (when ready)\n9. Polish UI/UX\n10. Test on physical device (if available)\n\n### Success Criteria:\n- App runs without errors\n- Chat interface functional\n- Backend connection working\n- @mail agent accessible via @mention\n- Message sending/receiving works\n- UI is polished and responsive\n\n### Technologies:\n- React Native / Expo\n- Expo Router (app/ directory)\n- Backend API calls to localhost:3001\n"

def prompt_backend : String := "\n**Component:** Backend API Server (Express + Mastra + Neon)\n**Files:** {mastra}/src/index.ts, {mastra}/src/api/**, {mastra}/package.json\n\n### Tasks (Priority Order):\n1. Read HOSTED_ARCHITECTURE.md for new architecture\n2. Install Neon PostgreSQL client (@neondatabase/serverless)\n3. Create API endpoints:\n   - POST /api/auth/register\n   - POST /api/auth/login\n   - GET  /api/messages\n   - POST /api/messages\n   - GET  /api/agents\n4. Add database connection middleware\n5. Add JWT authentication middleware\n6. Update agent routing to store in database\n7. Add error handling and logging\n8. Test all endpoints\n\n### Success Criteria:\n- Backend connects to Neon\n- Auth endpoints work (register/login)\n- Messages endpoint saves to database\n- Agent routing integrated\n- CORS configured for frontend\n- Environment variables properly configured\n\n### Technologies:\n- Express.js\n- @neondatabase/serverless\n- jsonwebtoken (JWT)\n- bcrypt (password hashing)\n"

def prompt_frontend_v2 : String := "\n**Component:** Expo Frontend - API Integration\n**Files:** {expo}/App.js, {expo}/app/**, {expo}/components/**\n\n### Tasks (Priority Order):\n1. Read HOSTED_ARCHITECTURE.md for new architecture\n2. Remove local SQLite code\n3. Create API client (fetch wrapper)\n4. Add auth screens (login/register)\n5. Add JWT token storage (AsyncStorage)\n6. Update chat UI to use API endpoints\n7. Add @mention routing to backend\n8. Test message sending/receiving\n9. Add error handling for network issues\n10. Test on device/simulator\n\n### Success Criteria:\n- App connects to backend API\n- Login/register works\n- Messages save to database via API\n- Chat interface responsive\n- @mail mentions route correctly\n- Works on iOS and Android\n\n### Technologies:\n- React Native / Expo\n- AsyncStorage (JWT storage)\n- Fetch API\n- Expo Router\n"

def prompt_orchestrator : String := "\n**Component:** Full Stack Orchestrator - HOSTED ARCHITECTURE\n**Architecture:** VPS Backend + Neon PostgreSQL + Expo Frontend\n**Scope:** Entire LifeOS MVP - Unified Chat Interface\n\n### CRITICAL: Read HOSTED_ARCHITECTURE.md First!\nWe\x27ve pivoted to a hosted architecture. Local-first iOS is DEPRECATED.\n\n### Your Role:\nYou coordinate the overall build for HOSTED setup. Each iteration:\n1. Review HOSTED_ARCHITECTURE.md\n2. Identify highest priority task for hosted setup\n3. Make progress on that task\n4. Update progress tracking\n5. Move to next priority\n\n### Current Priority (Hosted MVP):\n1. **DATABASE**: Create Neon PostgreSQL schema\n2. **BACKEND**: Set up Express API + Neon connection\n3. **AUTH**: Implement user registration/login (JWT)\n4. **MESSAGES**: Message storage and retrieval endpoints\n5. **AGENTS**: Update @mail agent to use Neon\n6. **FRONTEND**: Update Expo app to connect to API\n7. **DEPLOY**: Prepare for VPS deployment\n8. **TEST**: End-to-end testing\n\n### Decision Making:\n- Focus on hosted architecture ONLY\n- Ignore local SQLite, CloudKit, Swift code\n- Build standard REST API\n- Use Neon PostgreSQL for everything\n- Keep it simple and deployable\n\n### Success Criteria (Hosted MVP Complete):\n- ✅ Neon database schema created\n- ✅ Backend API deployed on VPS\n- ✅ Auth working (register/login)\n- ✅ Messages persist to database\n- ✅ @mail agent integrated\n- ✅ Frontend connects to backend\n- ✅ Unified chat interface working\n- ✅ Ready for multi-device testing\n\n### Architecture Stack:\n- **Database:** Neon PostgreSQL\n- **Backend:** Node.js + Express + Mastra\n- **Frontend:** React Native Expo\n- **Deploy:** Railway/Fly.io/DigitalOcean\n- **Auth:** JWT tokens\n"

/-- The `agent_prompts` dictionary literal, in source order, including the
duplicated `"frontend"` key. -/
def agent_prompts : List (String × String) :=
  [("database", prompt_database),
   ("email", prompt_email),
   ("calendar", prompt_calendar),
   ("memory", prompt_memory),
   ("frontend", prompt_frontend_v1),
   ("backend", prompt_backend),
   ("frontend", prompt_frontend_v2),
   ("orchestrator", prompt_orchestrator)]

/-- Python `dict.get(k, default)` over the dictionary built from the literal:
since a later binding of the same key overwrites an earlier one, lookup takes
the last matching entry. -/
def pyDictGet (d : List (String × String)) (k : String) (dflt : String) : String :=
  match List.find? (fun p => p.1 == k) d.reverse with
  | some p => p.2
  | none => dflt

/-- Segment of the `common_context` f-string before the interpolated
iteration number (builder lines 48-54). -/
def ccHead (agent_type : String) : String :=
  "# LifeOS Autonomous Build - " ++ pyUpper agent_type ++ " Agent\n\n**Project:** LifeOS (Echo/Lark) - Personal Operating System MVP\n**Root:** " ++ LIFEOS_ROOT ++ "\n**Backend:** " ++ MASTRA_BACKEND ++ "\n**Frontend:** " ++ EXPO_APP ++ "\n**Iteration:** "

/-- Segment of the `common_context` f-string after the interpolated
iteration number (builder lines 54-70). -/
def ccTail (agent_type : String) : String :=
  "\n\n## Your Mission\nYou are a specialized autonomous coding agent responsible for building and maintaining\nthe " ++ agent_type ++ " component of lifeOS. You work continuously and autonomously.\n\n## Project Context\nLifeOS is a WhatsApp-style personal OS app with AI agents for productivity:\n- @mail agent: Gmail/email management\n- @cal agent: Calendar integration\n- @mem agent: Personal memory/search\n- Frontend: React Native Expo app\n\nCurrent status: ~70% code complete, needs testing, completion, and polish.\n\n## Your Responsibilities\n"

/-- The `common_context` f-string (builder lines 48-70): iteration numbers are
rendered exactly as Python `str(iteration)` renders an int. -/
def common_context (agent_type : String) (iteration : Int) : String :=
  ccHead agent_type ++ toString iteration ++ ccTail agent_type

/-- The shared footer appended to every prompt (builder lines 334-366),
before its placeholder substitutions. -/
def footer_template : String := "\n\n## Working Style:\n1. Start by reading relevant files to understand current state\n2. Make ONE focused change at a time\n3. Test your changes when possible\n4. Update progress logs\n5. If blocked, document the blocker and move to next task\n\n## Important Files:\n- Project specs: {root}/docs/stage-0-spec.md\n- Implementation status: {root}/IMPLEMENTATION_STATUS.md\n- Progress: {echo}/claude-progress.txt\n- Feature tests: {echo}/feature_list.json\n\n## Commands:\n- Start backend: cd {mastra} && npm run api\n- Start frontend: cd {expo} && npx expo start\n- Test backend: cd {mastra} && npm test (if tests exist)\n\n## Guidelines:\n- Work autonomously - don\x27t ask for permission\n- Be productive - make real progress each iteration\n- Test your changes when possible\n- Document what you do\n- Focus on making the app work, not perfect\n\n## This Iteration:\nAnalyze the current state and make ONE meaningful improvement.\nThen summarize what you did in 2-3 sentences.\n\nBEGIN YOUR WORK NOW.\n"

/-- The footer after its four substitutions (builder line 366). -/
def resolvedFooter : String :=
  pyReplace (pyReplace (pyReplace (pyReplace footer_template "{root}" LIFEOS_ROOT) "{echo}" ECHO_MVP_DIR) "{mastra}" MASTRA_BACKEND) "{expo}" EXPO_APP

/-- Builder `get_agent_prompt` (lines 45-368): shared header, role body looked
up with orchestrator fallback, two placeholder substitutions over the
header-plus-body, then the separately substituted footer. -/
def get_agent_prompt (agent_type : String) (iteration : Int) : String :=
  let body := pyDictGet agent_prompts agent_type (pyDictGet agent_prompts "orchestrator" "")
  let prompt0 := common_context agent_type iteration ++ body
  let prompt1 := pyReplace prompt0 "{mastra}" MASTRA_BACKEND
  let prompt2 := pyReplace prompt1 "{expo}" EXPO_APP
  prompt2 ++ resolvedFooter

/-- The resolved role body: the dictionary value selected for a role (with
orchestrator fallback) after the two placeholder substitutions that
`get_agent_prompt` applies to the header-plus-body string.  Because the
header never ends in an unfinished placeholder, the substitutions act on the
body segment exactly like this (proved below). -/
def resolvedBodyOf (agent_type : String) : String :=
  pyReplace (pyReplace (pyDictGet agent_prompts agent_type (pyDictGet agent_prompts "orchestrator" "")) "{mastra}" MASTRA_BACKEND) "{expo}" EXPO_APP

example : pyReplace "a{mastra}b{mastra}" "{mastra}" "XY" = "aXYbXY" := by decide

example : pyUpper "email" = "EMAIL" := by decide

example : pyTruncate 3 "abcdef" = "abc" := by decide

example : ((pyDictGet agent_prompts "frontend" "").data == prompt_frontend_v2.data) = true := by decide

example : pyDictGet agent_prompts "nope" "dflt" = "dflt" := by decide

/-! ## Response events (spec §3; builder lines 393-416, wrapper lines 43-75)

The constructors carry the spec names; the source dispatches on the runtime
type names `TextBlock`, `ToolUseBlock` and `ToolResultBlock` of the blocks
streamed inside assistant/user messages. -/

inductive ResponseEvent where
  | TextFragment (content : String)
  | ToolInvocation (toolName : String)
  | ToolResult (is_error : Bool) (content : String)
deriving DecidableEq

/-- The event fold performed by the wrapper response loop (wrapper lines
43-75): `response_text` accumulates the content of each text block in arrival
order and `tool_uses` appends the name of each tool use; tool results only
produce console output and leave the accumulators unchanged. -/
def foldEvents (events : List ResponseEvent) : String × List String :=
  events.foldl
    (fun acc e =>
      match e with
      | ResponseEvent.TextFragment c => (acc.1 ++ c, acc.2)
      | ResponseEvent.ToolInvocation n => (acc.1, acc.2 ++ [n])
      | ResponseEvent.ToolResult _ _ => acc)
    ("", [])

/-- The response loop of the builder (lines 394-416) accumulates only
`response_text`; tool uses and tool results are echoed to the console but
not collected. -/
def builderText (events : List ResponseEvent) : String :=
  events.foldl
    (fun acc e =>
      match e with
      | ResponseEvent.TextFragment c => acc ++ c
      | _ => acc)
    ""

/-- Specification-side reading of §3: `aggregated_text` is the in-order
concatenation of all TextFragment contents. -/
def specAggregatedText : List ResponseEvent → String
  | [] => ""
  | ResponseEvent.TextFragment c :: rest => c ++ specAggregatedText rest
  | ResponseEvent.ToolInvocation _ :: rest => specAggregatedText rest
  | ResponseEvent.ToolResult _ _ :: rest => specAggregatedText rest

/-- Specification-side reading of §3: the tool names of all ToolInvocation
events, in arrival order, duplicates allowed. -/
def specToolNames : List ResponseEvent → List String
  | [] => []
  | ResponseEvent.ToolInvocation n :: rest => n :: specToolNames rest
  | ResponseEvent.TextFragment _ :: rest => specToolNames rest
  | ResponseEvent.ToolResult _ _ :: rest => specToolNames rest

/-! ## Session behaviours -/

/-- Oracle describing one interaction with the external agent runtime: it
either completes, yielding the full ordered event sequence, or raises at
one of the three effectful points inside the `try` block — entering the
session context (`async with client`), submitting the prompt
(`client.query`), or while iterating `client.receive_response()` after
having yielded a prefix of events. -/
inductive SessionBehavior where
  | acquireRaises (msg : String)
  | queryRaises (msg : String)
  | streamRaises (received : List ResponseEvent) (msg : String)
  | completes (events : List ResponseEvent)
deriving DecidableEq

/-- Outcome of the `try` body of `run_agent_iteration` (builder lines
388-418): `Except.error` is a raised Python exception, carrying its
stringification. -/
def sessionAttempt : SessionBehavior → Except String (List ResponseEvent)
  | SessionBehavior.acquireRaises m => Except.error m
  | SessionBehavior.queryRaises m => Except.error m
  | SessionBehavior.streamRaises _ m => Except.error m
  | SessionBehavior.completes evs => Except.ok evs

/-- Builder `run_agent_iteration` (lines 371-422): the whole session —
acquisition, submission, streaming — happens inside one `try`, and the
`except` arm converts any exception into the pair `("error", str(e))`.
Note `create_client` (line 383) runs before the `try`; a failure there is
a fatal configuration error outside this boundary (spec §7) and outside
this oracle. -/
def run_agent_iteration (behavior : SessionBehavior) : String × String :=
  match sessionAttempt behavior with
  | Except.ok evs => ("success", builderText evs)
  | Except.error e => ("error", e)

/-! ## Single-shot wrapper (claude_code_wrapper.py) -/

/-- One streamed JSON object on the stdout of the wrapper.  `bareError` is the
typeless `\x7b"error": ...\x7d` object printed by `main` before a session
exists (wrapper lines 19 and 94). -/
inductive OutRecord where
  | text (content : String)
  | tool (toolName : String)
  | tool_error (content : String)
  | complete (response : String) (tools_used : List String)
  | error (msg : String)
  | bareError (msg : String)
deriving DecidableEq

/-- JSON records printed by the wrapper while consuming one event (wrapper
lines 46-75): a text block and a tool use print one record each; a tool
result prints one `tool_error` record — its content truncated to 500
characters — when `is_error` is set, and nothing otherwise. -/
def eventRecords : ResponseEvent → List OutRecord
  | ResponseEvent.TextFragment c => [OutRecord.text c]
  | ResponseEvent.ToolInvocation n => [OutRecord.tool n]
  | ResponseEvent.ToolResult true c => [OutRecord.tool_error (pyTruncate 500 c)]
  | ResponseEvent.ToolResult false _ => []

/-- Wrapper `send_message` (lines 25-89): the stdout records in print
order, paired with the process exit status (0 = normal return to `main`,
1 = `sys.exit(1)` from the `except` handler).  On a mid-stream exception
the records already printed for the consumed prefix stay on stdout. -/
def send_message (behavior : SessionBehavior) : List OutRecord × Nat :=
  match behavior with
  | SessionBehavior.completes evs =>
      ((evs.map eventRecords).flatten ++
        [OutRecord.complete (foldEvents evs).1 (foldEvents evs).2], 0)
  | SessionBehavior.acquireRaises m => ([OutRecord.error m], 1)
  | SessionBehavior.queryRaises m => ([OutRecord.error m], 1)
  | SessionBehavior.streamRaises received m =>
      ((received.map eventRecords).flatten ++ [OutRecord.error m], 1)

/-- Wrapper `main` (lines 91-100): with fewer than two entries in
`sys.argv` (program name included) it prints the bare error object and
exits 1, never reaching `send_message`; otherwise the message is
`argv[1]` and the behaviour is that of `send_message`. -/
def wrapperMain (argv : List String) (behavior : SessionBehavior) : List OutRecord × Nat :=
  if argv.length < 2 then ([OutRecord.bareError "No message provided"], 1)
  else send_message behavior

/-- The "type" field of each streamed JSON record (the bare error object
carries no "type" field and is outside this vocabulary). -/
def recKind : OutRecord → String
  | OutRecord.text _ => "text"
  | OutRecord.tool _ => "tool"
  | OutRecord.tool_error _ => "tool_error"
  | OutRecord.complete _ _ => "complete"
  | OutRecord.error _ => "error"
  | OutRecord.bareError _ => "bare_error"

/-! ## Loop Controller and Session Log Writer (builder lines 425-489) -/

/-- The iteration-cap guard (builder line 454): Python truthiness makes
both `None` and `0` skip the guard, and the comparison is strict. -/
def capHit (max_iterations : Option Int) (iteration : Nat) : Bool :=
  match max_iterations with
  | none => false
  | some m => m != 0 && decide ((iteration : Int) > m)

/-- The post-iteration sleep (builder lines 469-475): the success branch
and the error branch print different messages but sleep the same
`AUTO_CONTINUE_DELAY`. -/
def postIterationDelay (status : String) : Nat :=
  if status == "success" then AUTO_CONTINUE_DELAY else AUTO_CONTINUE_DELAY

/-- The guard for the 1-second pre-next-iteration pause (builder line
478): no cap configured, or the counter still below the cap. -/
def nextPause (max_iterations : Option Int) (iteration : Nat) : Bool :=
  match max_iterations with
  | none => true
  | some m => decide ((iteration : Int) < m)

/-- One completed loop iteration, as observable from outside the loop. -/
structure IterRecord where
  index : Nat
  status : String
  response : String
  delay : Nat
  pause : Bool
deriving DecidableEq

/-- The `while True` loop of builder `run_continuous_build` (lines
448-480).  The oracle supplies for each iteration its `run_agent_iteration`
outcome; `counter` is the value of the Python `iteration` variable before
the increment at line 451 (the source initialises it to 0); `fuel` bounds
the number of loop steps, so the potentially unbounded source loop is
observed through its finite prefixes. -/
def run_continuous_build (oracle : Nat → String × String) (max_iterations : Option Int) : Nat → Nat → List IterRecord
  | 0, _ => []
  | fuel + 1, counter =>
    let i := counter + 1
    if capHit max_iterations i then []
    else
      let outcome := oracle i
      { index := i, status := outcome.1, response := outcome.2,
        delay := postIterationDelay outcome.1,
        pause := nextPause max_iterations i } ::
        run_continuous_build oracle max_iterations fuel i

/-- The separator line written around each log entry. -/
def sep70 : String := String.mk (List.replicate 70 '=')

/-- One session-log entry exactly as the five `f.write` calls of builder
lines 463-467 lay it down. -/
def entryText (iteration : Nat) (timestamp : String) (response : String) : String :=
  "\n" ++ sep70 ++ "\n" ++ "Iteration " ++ toString iteration ++ " - " ++ timestamp ++ "\n" ++ sep70 ++ "\n" ++ response ++ "\n"

/-- Writing to a file opened in append mode ("a", builder line 462): the
new bytes land after the existing contents, which stay untouched. -/
def appendLog (file entry : String) : String := file ++ entry

/-- The log entries of a run: one per completed iteration, in iteration
order, whatever the status of each iteration; timestamps come from an oracle
standing for `datetime.now().isoformat()`. -/
def logEntriesOf (timestamps : Nat → String) (records : List IterRecord) : List String :=
  records.map (fun r => entryText r.index (timestamps r.index) r.response)

/-- The session log file contents after a run: the entry of each iteration
appended in turn to an initially empty file. -/
def sessionLogFile (timestamps : Nat → String) (records : List IterRecord) : String :=
  (logEntriesOf timestamps records).foldl appendLog ""

/-- A degenerate outcome oracle used to instantiate universally quantified
theorems at concrete inputs. -/
def constOracle : Nat → String × String := fun _ => ("success", "")

example : run_agent_iteration (SessionBehavior.queryRaises "boom") = ("error", "boom") := by decide

example : run_continuous_build constOracle (some 2) 5 0 =
    [⟨1, "success", "", 5, true⟩, ⟨2, "success", "", 5, false⟩] := by decide

example : run_continuous_build constOracle (some (-1)) 5 0 = [] := by decide

example : (run_continuous_build constOracle (some 0) 4 0).length = 4 := by decide

example : send_message (SessionBehavior.completes [ResponseEvent.ToolResult false "ok"]) =
    ([OutRecord.complete "" []], 0) := by decide

/-! ## Placeholder vocabulary -/

/-- The opening-brace character that every placeholder token starts with. -/
def lbrace : Char := Char.ofNat 123

/-- The placeholder tokens the source substitutes (builder lines 331-332
and 366). -/
def placeholderTokens : List String := ["{mastra}", "{expo}", "{root}", "{echo}"]

/-- The recognized role names (the argparse choices, builder line 496,
which coincide with the keys of `agent_prompts`). -/
def recognizedRoles : List String :=
  ["database", "backend", "email", "calendar", "memory", "frontend", "orchestrator"]

/-- Containment of `t` inside `s`, as character sequences. -/
def strContains (s t : String) : Prop := t.data <:+: s.data

/-- Bool-level check that a character list contains no opening brace.
Stated over `List.all` so that concrete instances evaluate with an
iterative reduction. -/
def noLb (l : List Char) : Bool := l.all (fun c => c != lbrace)

/-- Membership in the `agent_prompts` dictionary, as Python `in` would
report it. -/
def roleRecognized (role : String) : Bool := agent_prompts.any (fun p => p.1 == role)

/-! ## Helper lemmas: strings and placeholder substitution -/

lemma strContains_of_eq (s t : String) (pre post : List Char)
    (h : s.data = pre ++ t.data ++ post) : strContains s t :=
  ⟨pre, post, h.symm⟩

lemma noLb_iff (l : List Char) : noLb l = true ↔ lbrace ∉ l := by
  rw [noLb, List.all_eq_true]
  constructor
  · intro h hm
    have hc := h lbrace hm
    simp [bne_iff_ne] at hc
  · intro h c hc
    simp only [bne_iff_ne, ne_eq, decide_eq_true_eq]
    intro e
    exact h (e ▸ hc)

lemma str_eq_of_beq_data (s t : String) (h : (s.data == t.data) = true) : s = t :=
  String.ext (eq_of_beq h)

lemma not_strContains_of_no_lbrace (s t : String) (hs : lbrace ∉ s.data)
    (ht : lbrace ∈ t.data) : ¬ strContains s t :=
  fun hinf => hs (hinf.subset ht)

/-- Scanning for a pattern that starts with a character absent from `A`
never matches inside `A`, so replacement distributes over the append. -/
lemma replaceAllFuel_append (p : Char) (ps new : List Char) :
    ∀ (A B : List Char), p ∉ A →
      replaceAllFuel (A.length + B.length) (A ++ B) (p :: ps) new =
        A ++ replaceAllFuel B.length B (p :: ps) new := by
  intro A
  induction A with
  | nil => intro B _; simp
  | cons a A ih =>
    intro B h
    have hpa : (p == a) = false := by
      simp only [beq_eq_false_iff_ne]
      intro e
      exact h (e ▸ List.mem_cons_self a A)
    have hlen : (a :: A).length + B.length = (A.length + B.length) + 1 := by
      simp only [List.length_cons]
      omega
    rw [hlen]
    show replaceAllFuel ((A.length + B.length) + 1) (a :: (A ++ B)) (p :: ps) new = _
    rw [replaceAllFuel]
    have hnp : List.isPrefixOf (p :: ps) (a :: (A ++ B)) = false := by
      show (p == a && List.isPrefixOf ps (A ++ B)) = false
      rw [hpa]
      rfl
    rw [hnp]
    simp only [Bool.false_eq_true, if_false, List.cons_append]
    rw [ih B (fun hm => h (List.mem_cons_of_mem a hm))]

lemma digitChar_ne_lbrace (d : Nat) : Nat.digitChar d ≠ lbrace := by
  rcases Nat.lt_or_ge d 16 with h | h
  · interval_cases d <;> decide
  · unfold Nat.digitChar
    repeat rw [if_neg (by omega)]
    decide

lemma toDigitsCore_no_lbrace (b : Nat) :
    ∀ (fuel n : Nat) (ds : List Char), lbrace ∉ ds →
      lbrace ∉ Nat.toDigitsCore b fuel n ds := by
  intro fuel
  induction fuel with
  | zero =>
    intro n ds h
    simpa [Nat.toDigitsCore] using h
  | succ fuel ih =>
    intro n ds h
    rw [Nat.toDigitsCore]
    have hcons : lbrace ∉ (n % b).digitChar :: ds := by
      intro hm
      rcases List.mem_cons.mp hm with he | hm
      · exact digitChar_ne_lbrace (n % b) he.symm
      · exact h hm
    split
    · exact hcons
    · exact ih (n / b) ((n % b).digitChar :: ds) hcons

lemma natRepr_no_lbrace (n : Nat) : lbrace ∉ (Nat.repr n).data := by
  show lbrace ∉ ((Nat.toDigits 10 n).asString).data
  have hdata : ((Nat.toDigits 10 n).asString).data = Nat.toDigits 10 n := rfl
  rw [hdata, Nat.toDigits]
  exact toDigitsCore_no_lbrace 10 (n + 1) n [] (by simp)

lemma intToString_no_lbrace (i : Int) : lbrace ∉ (toString i).data := by
  have hrep : toString i = Int.repr i := rfl
  rw [hrep]
  cases i with
  | ofNat n => exact natRepr_no_lbrace n
  | negSucc n =>
    show lbrace ∉ ("-" ++ Nat.repr (n + 1)).data
    rw [String.data_append]
    intro hmem
    rcases List.mem_append.mp hmem with hm | hm
    · exact absurd hm (by decide)
    · exact natRepr_no_lbrace (n + 1) hm

lemma listLen_eq (l : List Char) : ∀ n : Nat, listLen l n = l.length + n := by
  induction l with
  | nil => intro n; simp [listLen]
  | cons c l ih =>
    intro n
    rw [listLen, ih, List.length_cons]
    omega

lemma pyReplace_data (s old new : String) (h : old.data ≠ []) :
    (pyReplace s old new).data = replaceAllFuel s.data.length s.data old.data new.data := by
  rw [pyReplace, if_neg]
  · rw [listLen_eq, Nat.add_zero]
  · simpa [List.isEmpty_iff] using h

/-- Both placeholder substitutions of `get_agent_prompt` leave the shared
header untouched and act on the body segment alone, because the header
contains no opening brace. -/
lemma prompt_subst_split (agent_type : String) (iteration : Int) (bodyS : String)
    (hAn : lbrace ∉ (ccHead agent_type).data ++ (toString iteration).data ++ (ccTail agent_type).data) :
    (pyReplace (pyReplace (common_context agent_type iteration ++ bodyS) "{mastra}" MASTRA_BACKEND) "{expo}" EXPO_APP).data =
      ((ccHead agent_type).data ++ (toString iteration).data ++ (ccTail agent_type).data) ++
        (pyReplace (pyReplace bodyS "{mastra}" MASTRA_BACKEND) "{expo}" EXPO_APP).data := by
  have hpm : ("{mastra}" : String).data = lbrace :: ("mastra\x7d" : String).data := by decide
  have hpe : ("{expo}" : String).data = lbrace :: ("expo\x7d" : String).data := by decide
  have hmne : ("{mastra}" : String).data ≠ [] := by decide
  have hene : ("{expo}" : String).data ≠ [] := by decide
  have hccD : (common_context agent_type iteration ++ bodyS).data =
      ((ccHead agent_type).data ++ (toString iteration).data ++ (ccTail agent_type).data) ++ bodyS.data := by
    rw [String.data_append, common_context, String.data_append, String.data_append]
  have h1 : (pyReplace (common_context agent_type iteration ++ bodyS) "{mastra}" MASTRA_BACKEND).data =
      ((ccHead agent_type).data ++ (toString iteration).data ++ (ccTail agent_type).data) ++
        (pyReplace bodyS "{mastra}" MASTRA_BACKEND).data := by
    rw [pyReplace_data _ _ _ hmne, hccD, List.length_append, hpm,
      replaceAllFuel_append lbrace (("mastra\x7d" : String).data) MASTRA_BACKEND.data _ _ hAn,
      ← hpm, ← pyReplace_data _ _ _ hmne]
  rw [pyReplace_data _ _ _ hene, h1, List.length_append, hpe,
    replaceAllFuel_append lbrace (("expo\x7d" : String).data) EXPO_APP.data _ _ hAn,
    ← hpe, ← pyReplace_data _ _ _ hene]

/-- Character-level decomposition of the emitted prompt: shared header
(with the rendered iteration number in the middle), resolved body,
resolved footer. -/
lemma get_agent_prompt_data (agent_type : String) (iteration : Int)
    (hh : lbrace ∉ (ccHead agent_type).data)
    (ht : lbrace ∉ (ccTail agent_type).data) :
    (get_agent_prompt agent_type iteration).data =
      (ccHead agent_type).data ++ ((toString iteration).data ++ ((ccTail agent_type).data ++
        ((resolvedBodyOf agent_type).data ++ resolvedFooter.data))) := by
  have hAn : lbrace ∉ (ccHead agent_type).data ++ (toString iteration).data ++ (ccTail agent_type).data := by
    intro hm
    rcases List.mem_append.mp hm with hm | hm
    · rcases List.mem_append.mp hm with hm | hm
      · exact hh hm
      · exact intToString_no_lbrace iteration hm
    · exact ht hm
  have hfold : pyReplace (pyReplace (pyDictGet agent_prompts agent_type (pyDictGet agent_prompts "orchestrator" "")) "{mastra}" MASTRA_BACKEND) "{expo}" EXPO_APP = resolvedBodyOf agent_type := rfl
  simp only [get_agent_prompt, String.data_append]
  rw [prompt_subst_split agent_type iteration _ hAn, hfold]
  simp [List.append_assoc]

lemma resolvedFooter_noLb : noLb resolvedFooter.data = true := by decide

lemma resolvedFooter_no_lbrace : lbrace ∉ resolvedFooter.data :=
  (noLb_iff _).mp resolvedFooter_noLb

/-- The two placeholder-freedom facts of spec §8 for one role, given
brace-freedom of the header of the role and of its resolved body. -/
lemma prompt_parts_ok (agent_type : String) (iteration : Int)
    (hh : lbrace ∉ (ccHead agent_type).data)
    (ht : lbrace ∉ (ccTail agent_type).data)
    (hb : lbrace ∉ (resolvedBodyOf agent_type).data) :
    (∀ tok ∈ placeholderTokens, ¬ strContains (get_agent_prompt agent_type iteration) tok) ∧
      strContains (get_agent_prompt agent_type iteration) (toString iteration) := by
  have hdata := get_agent_prompt_data agent_type iteration hh ht
  have hnolb : lbrace ∉ (get_agent_prompt agent_type iteration).data := by
    rw [hdata]
    intro hm
    rcases List.mem_append.mp hm with hm | hm
    · exact hh hm
    rcases List.mem_append.mp hm with hm | hm
    · exact intToString_no_lbrace iteration hm
    rcases List.mem_append.mp hm with hm | hm
    · exact ht hm
    rcases List.mem_append.mp hm with hm | hm
    · exact hb hm
    · exact resolvedFooter_no_lbrace hm
  refine ⟨?_, ?_⟩
  · intro tok htok
    have hlb : lbrace ∈ tok.data := by
      simp only [placeholderTokens, List.mem_cons, List.not_mem_nil, or_false] at htok
      rcases htok with rfl | rfl | rfl | rfl <;> decide
    exact not_strContains_of_no_lbrace _ _ hnolb hlb
  · exact strContains_of_eq _ _ (ccHead agent_type).data
      ((ccTail agent_type).data ++ ((resolvedBodyOf agent_type).data ++ resolvedFooter.data))
      (by rw [hdata]; simp [List.append_assoc])

/-- C4: for every recognized agent role and every iteration index, the
prompt emitted by `get_agent_prompt` contains none of the placeholder
tokens `\x7bmastra\x7d`, `\x7bexpo\x7d`, `\x7broot\x7d`, `\x7becho\x7d`,
and it contains the literal rendering of the iteration number supplied. -/
theorem C4_no_residual_placeholders (role : String) (hrole : role ∈ recognizedRoles) (iteration : Int) :
    (∀ tok ∈ placeholderTokens, ¬ strContains (get_agent_prompt role iteration) tok) ∧
      strContains (get_agent_prompt role iteration) (toString iteration) := by
  simp only [recognizedRoles, List.mem_cons, List.not_mem_nil, or_false] at hrole
  rcases hrole with rfl | rfl | rfl | rfl | rfl | rfl | rfl <;>
    exact prompt_parts_ok _ iteration ((noLb_iff _).mp (by decide)) ((noLb_iff _).mp (by decide))
      ((noLb_iff _).mp (by decide))

/-- Witness for C4 at the concrete role "email" and iteration 7. -/
theorem C4_witness :
    (∀ tok ∈ placeholderTokens, ¬ strContains (get_agent_prompt "email" 7) tok) ∧
      strContains (get_agent_prompt "email" 7) (toString (7 : Int)) :=
  C4_no_residual_placeholders "email" (by decide) 7

/-- C5: a role string that is not a key of the registry does not fail; it
falls back to the orchestrator task body, so its prompt is built from
`prompt_orchestrator` with only the shared header reflecting the supplied
role name — exactly the construction the recognized role "orchestrator"
itself gets. -/
theorem C5_unknown_role_fallback (role : String) (h : roleRecognized role = false) (iteration : Int) :
    get_agent_prompt role iteration =
      pyReplace (pyReplace (common_context role iteration ++ prompt_orchestrator) "{mastra}" MASTRA_BACKEND) "{expo}" EXPO_APP ++ resolvedFooter ∧
      get_agent_prompt "orchestrator" iteration =
        pyReplace (pyReplace (common_context "orchestrator" iteration ++ prompt_orchestrator) "{mastra}" MASTRA_BACKEND) "{expo}" EXPO_APP ++ resolvedFooter := by
  have hfind : List.find? (fun p => p.1 == role) agent_prompts.reverse = none := by
    rw [List.find?_eq_none]
    intro p hp hbeq
    have hany : agent_prompts.any (fun q => q.1 == role) = true :=
      List.any_eq_true.mpr ⟨p, List.mem_reverse.mp hp, hbeq⟩
    rw [roleRecognized, hany] at h
    exact Bool.noConfusion h
  have horch : pyDictGet agent_prompts "orchestrator" "" = prompt_orchestrator :=
    str_eq_of_beq_data _ _ (by decide)
  have hlookup : pyDictGet agent_prompts role (pyDictGet agent_prompts "orchestrator" "") = prompt_orchestrator := by
    rw [pyDictGet, hfind, horch]
  have horch2 : pyDictGet agent_prompts "orchestrator" (pyDictGet agent_prompts "orchestrator" "") = prompt_orchestrator :=
    str_eq_of_beq_data _ _ (by decide)
  constructor
  · simp only [get_agent_prompt]
    rw [hlookup]
  · simp only [get_agent_prompt]
    rw [horch2]

/-- Witness for C5 at the concrete unrecognized role "planner". -/
theorem C5_witness :
    get_agent_prompt "planner" 1 =
      pyReplace (pyReplace (common_context "planner" 1 ++ prompt_orchestrator) "{mastra}" MASTRA_BACKEND) "{expo}" EXPO_APP ++ resolvedFooter ∧
      get_agent_prompt "orchestrator" 1 =
        pyReplace (pyReplace (common_context "orchestrator" 1 ++ prompt_orchestrator) "{mastra}" MASTRA_BACKEND) "{expo}" EXPO_APP ++ resolvedFooter :=
  C5_unknown_role_fallback "planner" (by decide) 1

/-! ## Helper lemmas: loop controller -/

lemma capHit_some_iff (m : Int) (i : Nat) :
    capHit (some m) i = true ↔ m ≠ 0 ∧ (i : Int) > m := by
  simp [capHit, bne_iff_ne]

lemma capHit_coe (m i : Nat) (hm : 0 < m) :
    capHit (some (m : Int)) i = decide (m < i) := by
  by_cases h : m < i
  · rw [(capHit_some_iff _ _).mpr ⟨by exact_mod_cast Nat.pos_iff_ne_zero.mp hm, by exact_mod_cast h⟩]
    simp [h]
  · have hne : ¬ capHit (some (m : Int)) i = true := by
      intro hc
      exact h (by exact_mod_cast ((capHit_some_iff _ _).mp hc).2)
    rw [Bool.not_eq_true] at hne
    rw [hne]
    simp [h]

/-- The sequence of iteration indices the loop starts does not depend on
the outcomes the oracle produces. -/
lemma run_indices_indep (oracle oracle' : Nat → String × String) (mi : Option Int) :
    ∀ (fuel counter : Nat),
      (run_continuous_build oracle mi fuel counter).map IterRecord.index =
        (run_continuous_build oracle' mi fuel counter).map IterRecord.index := by
  intro fuel
  induction fuel with
  | zero => intro counter; rfl
  | succ fuel ih =>
    intro counter
    simp only [run_continuous_build]
    by_cases hc : capHit mi (counter + 1) = true
    · rw [if_pos hc, if_pos hc]
    · rw [if_neg hc, if_neg hc]
      simp only [List.map_cons]
      rw [ih]

/-- With a positive cap `m`, the loop visits exactly the counter values
`counter+1 .. m` (given enough fuel). -/
lemma run_indices (oracle : Nat → String × String) (m : Nat) (hm : 0 < m) :
    ∀ (fuel counter : Nat), counter ≤ m → m ≤ counter + fuel →
      (run_continuous_build oracle (some (m : Int)) fuel counter).map IterRecord.index =
        List.range' (counter + 1) (m - counter) := by
  intro fuel
  induction fuel with
  | zero =>
    intro counter h1 h2
    have hcm : counter = m := by omega
    subst hcm
    simp [run_continuous_build]
  | succ fuel ih =>
    intro counter h1 h2
    rcases Nat.lt_or_ge counter m with hlt | hge
    · have hcap : capHit (some (m : Int)) (counter + 1) = false := by
        rw [capHit_coe m (counter + 1) hm]
        simp only [decide_eq_false_iff_not]
        omega
      simp only [run_continuous_build, hcap, Bool.false_eq_true, if_false, List.map_cons]
      rw [ih (counter + 1) (by omega) (by omega)]
      have hr : m - counter = (m - (counter + 1)) + 1 := by omega
      rw [hr, List.range'_succ]
    · have hcm : counter = m := by omega
      rw [hcm]
      have hcap : capHit (some (m : Int)) (m + 1) = true := by
        rw [capHit_coe m (m + 1) hm]
        simp
      simp [run_continuous_build, hcap, Nat.sub_self]

lemma run_zero_cap_length (oracle : Nat → String × String) :
    ∀ (fuel counter : Nat),
      (run_continuous_build oracle (some 0) fuel counter).length = fuel := by
  intro fuel
  induction fuel with
  | zero => intro counter; rfl
  | succ fuel ih =>
    intro counter
    have hcap : capHit (some 0) (counter + 1) = false := rfl
    simp only [run_continuous_build, hcap, Bool.false_eq_true, if_false, List.length_cons]
    rw [ih]

/-! ## Helper lemmas: event folding and strings -/

lemma str_append_assoc (a b c : String) : a ++ b ++ c = a ++ (b ++ c) := by
  apply String.ext
  simp [String.data_append]

lemma foldEvents_loop (events : List ResponseEvent) :
    ∀ acc : String × List String,
      List.foldl (fun acc e =>
        match e with
        | ResponseEvent.TextFragment c => (acc.1 ++ c, acc.2)
        | ResponseEvent.ToolInvocation n => (acc.1, acc.2 ++ [n])
        | ResponseEvent.ToolResult _ _ => acc) acc events =
      (acc.1 ++ specAggregatedText events, acc.2 ++ specToolNames events) := by
  induction events with
  | nil => intro acc; simp [specAggregatedText, specToolNames]
  | cons e rest ih =>
    intro acc
    cases e with
    | TextFragment c =>
      simp only [List.foldl_cons, specAggregatedText, specToolNames]
      rw [ih]
      rw [str_append_assoc]
    | ToolInvocation n =>
      simp only [List.foldl_cons, specAggregatedText, specToolNames]
      rw [ih]
      simp
    | ToolResult b c =>
      simp only [List.foldl_cons, specAggregatedText, specToolNames]
      rw [ih]

lemma foldEvents_eq (events : List ResponseEvent) :
    foldEvents events = (specAggregatedText events, specToolNames events) := by
  have h := foldEvents_loop events ("", [])
  simpa [foldEvents] using h

lemma foldl_appendLog (l : List String) :
    ∀ acc : String,
      (l.foldl appendLog acc).data = acc.data ++ (l.map String.data).flatten := by
  induction l with
  | nil => intro acc; simp
  | cons s l ih =>
    intro acc
    simp only [List.foldl_cons, List.map_cons, List.flatten_cons]
    rw [ih]
    simp [appendLog, String.data_append]

/-! ## Claim theorems -/

/-- C1: every exception raised inside the session boundary — acquiring
the session, submitting the prompt, or iterating the response events —
is caught by `run_agent_iteration` and returned as the outcome pair
("error", stringified exception); and the iterations the Loop Controller
starts do not depend on the outcomes it receives, so the loop proceeds
past an error iteration exactly as past a success. -/
theorem C1_error_boundary :
    (∀ (behavior : SessionBehavior) (e : String),
        sessionAttempt behavior = Except.error e →
          run_agent_iteration behavior = ("error", e)) ∧
      ∀ (oracle oracle' : Nat → String × String) (mi : Option Int) (fuel counter : Nat),
        (run_continuous_build oracle mi fuel counter).map IterRecord.index =
          (run_continuous_build oracle' mi fuel counter).map IterRecord.index := by
  constructor
  · intro behavior e h
    rw [run_agent_iteration, h]
  · exact run_indices_indep

/-- Witness for C1: a session that raises mid-stream after yielding a
text fragment folds to ("error", message). -/
theorem C1_witness :
    run_agent_iteration
        (SessionBehavior.streamRaises [ResponseEvent.TextFragment "partial"] "connection lost") =
      ("error", "connection lost") :=
  C1_error_boundary.1 _ "connection lost" rfl

/-- C2 (counterexample): with configured maximum 0 the loop does not
perform exactly 0 iterations and terminate — Python truthiness disables
the cap, so iteration 1 (indeed 1, 2, 3, ...) starts. -/
theorem C2_counterexample :
    (run_continuous_build constOracle (some 0) 3 0).map IterRecord.index = [1, 2, 3] ∧
      (run_continuous_build constOracle (some 0) 3 0).length ≠ 0 := by decide

/-- C2 (amended): for every configured maximum m ≥ 1 the loop performs
exactly the iterations 1..m in order — each Running step incrementing the
1-based counter — and the cap guard fires for counter value m + 1, so no
iteration is performed for that counter value. -/
theorem C2_exact_iterations (m fuel : Nat) (hm : 1 ≤ m) (hfuel : m ≤ fuel)
    (oracle : Nat → String × String) :
    (run_continuous_build oracle (some (m : Int)) fuel 0).map IterRecord.index =
        List.range' 1 m ∧
      capHit (some (m : Int)) (m + 1) = true := by
  constructor
  · have h := run_indices oracle m hm fuel 0 (by omega) (by omega)
    simpa using h
  · rw [capHit_coe m (m + 1) hm]
    simp

/-- Witness for C2 at maximum 3 with fuel 5: exactly iterations 1, 2, 3. -/
theorem C2_witness :
    (run_continuous_build constOracle (some ((3 : Nat) : Int)) 5 0).map IterRecord.index =
        List.range' 1 3 ∧
      capHit (some ((3 : Nat) : Int)) (3 + 1) = true :=
  C2_exact_iterations 3 5 (by decide) (by decide) constOracle

/-- C3: folding a finite event sequence yields aggregated text equal to
the in-order concatenation of all TextFragment contents and the tool
names of all ToolInvocation events in arrival order (duplicates kept);
the status of every iteration outcome is "success" or "error"; and the
sequence [TextFragment "a", ToolInvocation "x", TextFragment "b"] folds
to ("ab", ["x"]). -/
theorem C3_fold_events :
    (∀ events : List ResponseEvent,
        foldEvents events = (specAggregatedText events, specToolNames events)) ∧
      (∀ behavior : SessionBehavior,
        (run_agent_iteration behavior).1 = "success" ∨
          (run_agent_iteration behavior).1 = "error") ∧
      foldEvents [ResponseEvent.TextFragment "a", ResponseEvent.ToolInvocation "x",
          ResponseEvent.TextFragment "b"] =
        ("ab", ["x"]) := by
  refine ⟨foldEvents_eq, ?_, by decide⟩
  intro behavior
  cases behavior <;> simp [run_agent_iteration, sessionAttempt]

/-- C6: the log is append-only — an append keeps the existing file as a
prefix; two sequential appends leave entry 1 before entry 2, both intact;
the file after a run is the concatenation of the entries in iteration
order; and every completed iteration contributes exactly one entry,
whatever its status. -/
theorem C6_append_only_log :
    (∀ file entry : String, file.data <+: (appendLog file entry).data) ∧
      (∀ file e1 e2 : String,
        (appendLog (appendLog file e1) e2).data = file.data ++ e1.data ++ e2.data) ∧
      (∀ (timestamps : Nat → String) (records : List IterRecord),
        (sessionLogFile timestamps records).data =
          ((logEntriesOf timestamps records).map String.data).flatten) ∧
      (∀ (timestamps : Nat → String) (oracle : Nat → String × String) (mi : Option Int)
          (fuel counter : Nat),
        (logEntriesOf timestamps (run_continuous_build oracle mi fuel counter)).length =
          (run_continuous_build oracle mi fuel counter).length) := by
  refine ⟨?_, ?_, ?_, ?_⟩
  · intro file entry
    show file.data <+: (file ++ entry).data
    rw [String.data_append]
    exact List.prefix_append _ _
  · intro file e1 e2
    show ((file ++ e1) ++ e2).data = file.data ++ e1.data ++ e2.data
    simp [String.data_append]
  · intro timestamps records
    rw [sessionLogFile, foldl_appendLog]
    simp
  · intro timestamps oracle mi fuel counter
    simp [logEntriesOf]

/-- C7 (counterexample): a successful tool result produces no JSON record
at all, so the wrapper does not emit one record per response event: for
the one-event stream below the claim demands 1 + 1 records, but only the
final complete record is printed. -/
theorem C7_counterexample :
    (send_message (SessionBehavior.completes [ResponseEvent.ToolResult false "ok"])).1.length ≠
      [ResponseEvent.ToolResult false "ok"].length + 1 := by decide

/-- C7 (amended): the wrapper emits at most one JSON record per response
event — one text or tool record per text fragment or tool invocation, one
truncated tool_error record per failed tool result, none for a successful
tool result — all from the kind vocabulary; and the stream terminates
either with a complete record carrying the aggregated text and the
tool-name list and exit status 0, or with an error record and exit
status 1. -/
theorem C7_stream_protocol :
    (∀ e : ResponseEvent, (eventRecords e).length ≤ 1 ∧
        ∀ r ∈ eventRecords e, recKind r ∈ (["text", "tool", "tool_error"] : List String)) ∧
      (∀ behavior : SessionBehavior,
        (∃ per response tools,
            send_message behavior = (per ++ [OutRecord.complete response tools], 0)) ∨
          ∃ per msg, send_message behavior = (per ++ [OutRecord.error msg], 1)) ∧
      ∀ events : List ResponseEvent,
        (send_message (SessionBehavior.completes events)).1.getLast? =
          some (OutRecord.complete (specAggregatedText events) (specToolNames events)) := by
  refine ⟨?_, ?_, ?_⟩
  · intro e
    constructor
    · cases e with
      | TextFragment c => simp [eventRecords]
      | ToolInvocation n => simp [eventRecords]
      | ToolResult b c => cases b <;> simp [eventRecords]
    · intro r hr
      cases e with
      | TextFragment c =>
        simp only [eventRecords, List.mem_singleton] at hr
        rw [hr]
        simp [recKind]
      | ToolInvocation n =>
        simp only [eventRecords, List.mem_singleton] at hr
        rw [hr]
        simp [recKind]
      | ToolResult b c =>
        cases b with
        | false => simp [eventRecords] at hr
        | true =>
          simp only [eventRecords, List.mem_singleton] at hr
          rw [hr]
          simp [recKind]
  · intro behavior
    cases behavior with
    | completes events => exact Or.inl ⟨_, _, _, rfl⟩
    | acquireRaises msg => exact Or.inr ⟨[], msg, rfl⟩
    | queryRaises msg => exact Or.inr ⟨[], msg, rfl⟩
    | streamRaises received msg => exact Or.inr ⟨_, msg, rfl⟩
  · intro events
    simp only [send_message]
    rw [List.getLast?_concat, foldEvents_eq]

/-- Witness for C7: the record emitted for a failed tool result carries
the kind "tool_error". -/
theorem C7_witness :
    recKind (OutRecord.tool_error (pyTruncate 500 "x")) ∈
      (["text", "tool", "tool_error"] : List String) :=
  (C7_stream_protocol.1 (ResponseEvent.ToolResult true "x")).2 _ (by decide)

/-- C8: the post-iteration delay is the same fixed AUTO_CONTINUE_DELAY
whether the outcome status is "success" or "error" — there is no backoff
growth and no error-dependent behaviour — and every completed iteration
of any run carries exactly that delay. -/
theorem C8_uniform_delay :
    (∀ status : String, postIterationDelay status = AUTO_CONTINUE_DELAY) ∧
      postIterationDelay "success" = postIterationDelay "error" ∧
      ∀ (oracle : Nat → String × String) (mi : Option Int) (fuel counter : Nat)
        (r : IterRecord),
        r ∈ run_continuous_build oracle mi fuel counter →
          r.delay = AUTO_CONTINUE_DELAY := by
  have hpost : ∀ status : String, postIterationDelay status = AUTO_CONTINUE_DELAY := by
    intro status
    rw [postIterationDelay]
    split <;> rfl
  refine ⟨hpost, by rw [hpost, hpost], ?_⟩
  intro oracle mi fuel
  induction fuel with
  | zero =>
    intro counter r hr
    simp [run_continuous_build] at hr
  | succ fuel ih =>
    intro counter r hr
    simp only [run_continuous_build] at hr
    by_cases hc : capHit mi (counter + 1) = true
    · rw [if_pos hc] at hr
      simp at hr
    · rw [if_neg hc] at hr
      rcases List.mem_cons.mp hr with he | hr
      · rw [he]
        exact hpost _
      · exact ih (counter + 1) r hr

/-- Witness for C8: the sole record of a one-iteration run has delay
AUTO_CONTINUE_DELAY. -/
theorem C8_witness :
    IterRecord.delay ⟨1, "success", "", 5, true⟩ = AUTO_CONTINUE_DELAY :=
  C8_uniform_delay.2.2 constOracle none 1 0 ⟨1, "success", "", 5, true⟩ (by decide)

/-- C9: the cap guard fires exactly when a maximum is present, non-zero,
and strictly exceeded by the incremented counter; consequently maximum 0
is no cap at all (the loop runs as far as any fuel allows) and a negative
maximum stops the run after zero iterations. -/
theorem C9_truthiness_cap :
    (∀ (m : Int) (i : Nat), capHit (some m) i = true ↔ m ≠ 0 ∧ (i : Int) > m) ∧
      (∀ i : Nat, capHit none i = false) ∧
      (∀ (fuel : Nat) (oracle : Nat → String × String),
        (run_continuous_build oracle (some 0) fuel 0).length = fuel) ∧
      (∀ m : Int, m < 0 → ∀ (fuel : Nat) (oracle : Nat → String × String),
        run_continuous_build oracle (some m) fuel 0 = []) := by
  refine ⟨capHit_some_iff, fun i => rfl, fun fuel oracle => run_zero_cap_length oracle fuel 0, ?_⟩
  intro m hm fuel oracle
  cases fuel with
  | zero => rfl
  | succ fuel =>
    have hcap : capHit (some m) 1 = true :=
      (capHit_some_iff m 1).mpr ⟨by omega, by omega⟩
    simp [run_continuous_build, hcap]

/-- Witness for C9: maximum -1 yields an empty run. -/
theorem C9_witness : run_continuous_build constOracle (some (-1)) 3 0 = [] :=
  C9_truthiness_cap.2.2.2 (-1) (by decide) 3 constOracle

/-- C10: invoked with no message argument (fewer than two argv entries),
the wrapper prints exactly the bare JSON object with the
"No message provided" error and exits with status 1; the output is
independent of the runtime behaviour because no session is created. -/
theorem C10_no_message (argv : List String) (h : argv.length < 2)
    (behavior behavior' : SessionBehavior) :
    wrapperMain argv behavior = ([OutRecord.bareError "No message provided"], 1) ∧
      wrapperMain argv behavior = wrapperMain argv behavior' := by
  rw [wrapperMain, if_pos h, wrapperMain, if_pos h]
  exact ⟨rfl, rfl⟩

/-- Witness for C10: argv holding only the program name. -/
theorem C10_witness :
    wrapperMain ["claude_code_wrapper.py"] (SessionBehavior.completes []) =
        ([OutRecord.bareError "No message provided"], 1) ∧
      wrapperMain ["claude_code_wrapper.py"] (SessionBehavior.completes []) =
        wrapperMain ["claude_code_wrapper.py"] (SessionBehavior.queryRaises "x") :=
  C10_no_message ["claude_code_wrapper.py"] (by decide) (SessionBehavior.completes [])
    (SessionBehavior.queryRaises "x")
